import Mathlib

/-!
Verification development for the Timefold visualization frontend server
(`src/frontend/server.py`): a shallow embedding in Lean 4 of the request
handler `CORSHTTPRequestHandler` (CORS header injection, GET routing, the
`/api/versions` discovery endpoint, and log suppression), together with
theorems settling the specification's claims about it.
-/

namespace FrontendServer

/-- An HTTP header: a name/value pair. -/
abbrev Header := String × String

/-- The three fixed CORS headers added by `CORSHTTPRequestHandler.end_headers`
(server.py lines 16-18), in the order `send_header` is called. -/
def corsHeaders : List Header :=
  [("Access-Control-Allow-Origin", "*"),
   ("Access-Control-Allow-Methods", "GET, POST, OPTIONS"),
   ("Access-Control-Allow-Headers", "Content-Type")]

/-- `CORSHTTPRequestHandler.end_headers` (server.py lines 15-19): takes the
headers already emitted by `send_header` calls, appends the three CORS
headers, and then finalizes via the superclass.  The result is the complete
header set of the response. -/
def endHeaders (sent : List Header) : List Header :=
  sent ++ corsHeaders

/-- A node of the served filesystem tree: a regular file with its byte
content (modelled as a string), or a directory with its ordered list of
child entries.  The list order of a directory's children is the order in
which `Path.iterdir()` enumerates them. -/
inductive PyNode where
  | file : String → PyNode
  | dir : List (String × PyNode) → PyNode

/-- Look a name up among a directory's child entries (first match). -/
def lookupEntry : List (String × PyNode) → String → Option PyNode
  | [], _ => none
  | (n, node) :: rest, name => if n = name then some node else lookupEntry rest name

/-- `Path.is_dir()` on a node that exists. -/
def PyNode.isDir : PyNode → Bool
  | .dir _ => true
  | .file _ => false

/-- `(item / f).exists()` for a child name `f` of node `item`: true when the
name maps to some entry (file or directory) directly inside `item`.  On a
regular file it is false, since `somefile/f` names nothing. -/
def childExists : PyNode → String → Bool
  | .dir cs, f => (lookupEntry cs f).isSome
  | .file _, _ => false

/-- The filesystem state visible to one request: the child entries of the
server's working directory (the Server Root), plus an optional injected
exception: `scanError = some e` models an unexpected failure (for example a
filesystem error mid-scan) raised while `handle_versions_api` computes its
result, carrying the exception's message `e`. -/
structure Fs where
  root : List (String × PyNode)
  scanError : Option String

/-- The required filenames of `handle_versions_api` (server.py line 38). -/
def requiredFiles : List String := ["input_orders.csv", "input_riders.csv"]

/-- Whether `sub` occurs at the very start of `s` (on character lists). -/
def charsHasPre : List Char → List Char → Bool
  | [], _ => true
  | _ :: _, [] => false
  | a :: sub, b :: s => a = b && charsHasPre sub s

/-- Python's `str.startswith(p)` on `s`. -/
def pyStartsWith (s p : String) : Bool :=
  charsHasPre p.toList s.toList

/-- The per-entry filter of the discovery loop (server.py lines 36-39): the
entry is a directory, its name does not start with `.`, and every required
filename exists (`Path.exists()`) directly inside it. -/
def entryQualifies (name : String) (node : PyNode) : Bool :=
  node.isDir && !(pyStartsWith name ".") && requiredFiles.all (fun f => childExists node f)

/-- The child entries of `csv_output` that `iterdir()` yields, in enumeration
order; empty when `csv_output` does not exist or is not a directory
(server.py line 34). -/
def csvChildren (fs : Fs) : List (String × PyNode) :=
  match lookupEntry fs.root "csv_output" with
  | some (.dir cs) => cs
  | _ => []

/-- The `versions` list as built by the scan loop (server.py lines 32-40),
before sorting: the names appended for qualifying entries, in enumeration
order. -/
def scanRaw (fs : Fs) : List String :=
  ((csvChildren fs).filter (fun p => entryQualifies p.1 p.2)).map Prod.fst

/-- Python's string comparison on character lists: lexicographic by code
point, a strict prefix comparing below its extensions. -/
def charsLe : List Char → List Char → Bool
  | [], _ => true
  | _ :: _, [] => false
  | a :: as, b :: bs => if a < b then true else if b < a then false else charsLe as bs

/-- Python's `a <= b` on strings: lexicographic ordinal (code-point)
comparison. -/
def strLe (a b : String) : Bool :=
  charsLe a.toList b.toList

/-- Insert a string into an already sorted list, keeping it sorted. -/
def insertOrdered (x : String) : List String → List String
  | [] => [x]
  | y :: ys => if strLe x y then x :: y :: ys else y :: insertOrdered x ys

/-- `versions.sort()` (server.py line 42): Python's stable in-place sort of a
list of strings under lexicographic (code-point) comparison.  Stability,
sortedness and being a permutation determine the output uniquely on a linear
order, so an insertion sort under the same comparison is the same function. -/
def pySort : List String → List String
  | [] => []
  | x :: xs => insertOrdered x (pySort xs)

/-- The sorted `versions` list of a successful `/api/versions` computation. -/
def apiVersions (fs : Fs) : List String :=
  pySort (scanRaw fs)

/-- Steps 1-4 of the discovery algorithm inside the `try` block: either the
sorted versions list, or the message of the exception that was raised. -/
def computeVersions (fs : Fs) : Except String (List String) :=
  match fs.scanError with
  | some e => .error e
  | none => .ok (apiVersions fs)

/-- The response dictionary built at server.py lines 48-52, with its keys in
insertion order: exactly `versions`, `count` and `base_path`. -/
structure VersionsDict where
  versions : List String
  count : Nat
  base_path : String

/-- Serialize one JSON string literal as Python's `json.dumps` does for the
names occurring here (escaping quote and backslash; control-character and
non-ASCII escapes are not needed by any name in this development). -/
def jsonStr (s : String) : String :=
  "\"" ++ String.join (s.toList.map (fun c =>
    if c = '"' then "\\\"" else if c = '\\' then "\\\\" else String.singleton c)) ++ "\""

/-- Serialize a JSON array of strings with `json.dumps` default separators. -/
def jsonList (l : List String) : String :=
  "[" ++ String.intercalate ", " (l.map jsonStr) ++ "]"

/-- `json.dumps(response)` (server.py line 54) for the response dictionary:
keys in insertion order, default separators. -/
def dumpsVersionsDict (d : VersionsDict) : String :=
  "\x7b\"versions\": " ++ jsonList d.versions ++ ", \"count\": " ++ toString d.count
    ++ ", \"base_path\": " ++ jsonStr d.base_path ++ "\x7d"

/-- An HTTP response: status code, complete header set (as finalized by
`end_headers`), and body (UTF-8 text). -/
structure Response where
  status : Nat
  headers : List Header
  body : String

/-- Models `BaseHTTPRequestHandler.send_error(status, msg)` from the standard
library (called at server.py line 57 and by the static responder for missing
files): it responds with the given status, a body carrying the human-readable
message `msg` (the library wraps it in its error page template), and a
`Content-Type` header for the error page; its header writing finalizes
through the overridden `end_headers`, so the CORS headers are appended. -/
def sendError (status : Nat) (msg : String) : Response :=
  { status := status
    headers := endHeaders [("Content-Type", "text/html;charset=utf-8")]
    body := msg }

/-- `handle_versions_api` (server.py lines 28-57): on success, HTTP 200 with
`Content-Type: application/json` (headers finalized by `end_headers`) and the
JSON serialization of the response dictionary whose `count` is
`len(versions)` and whose `base_path` is `/csv_output`; on an exception `e`,
`send_error(500, "Error detecting versions: " + str(e))`. -/
def handleVersionsApi (fs : Fs) : Response :=
  match computeVersions fs with
  | .ok versions =>
      { status := 200
        headers := endHeaders [("Content-Type", "application/json")]
        body := dumpsVersionsDict ⟨versions, versions.length, "/csv_output"⟩ }
  | .error e => sendError 500 ("Error detecting versions: " ++ e)

/-- Strip everything from the first occurrence of `sep` on (the head of
`String.splitOn`), as the standard static handler does for `?` and `#`. -/
def stripAfter (sep : String) (p : String) : String :=
  match p.splitOn sep with
  | [] => p
  | s :: _ => s

/-- Split a URL path into its nonempty segments. -/
def splitPath (p : String) : List String :=
  (p.splitOn "/").filter (fun s => s ≠ "")

/-- Walk a resolved path through the filesystem tree. -/
def resolvePath : PyNode → List String → Option PyNode
  | node, [] => some node
  | .dir cs, seg :: rest =>
      match lookupEntry cs seg with
      | some child => resolvePath child rest
      | none => none
  | .file _, _ :: _ => none

/-- Modelled from the standard library's `SimpleHTTPRequestHandler.do_GET`
(the superclass call at server.py line 26), per the spec's contract for the
Static File Responder: drop the query and fragment, resolve the path against
the Server Root, and either serve the file's bytes with HTTP 200 or produce a
standard not-found response; every path finalizes its headers through the
overridden `end_headers`. -/
def staticDoGET (fs : Fs) (path : String) : Response :=
  match resolvePath (.dir fs.root) (splitPath (stripAfter "#" (stripAfter "?" path))) with
  | some (.file content) =>
      { status := 200
        headers := endHeaders [("Content-Type", "application/octet-stream")]
        body := content }
  | _ => sendError 404 "File not found"

/-- `CORSHTTPRequestHandler.do_GET` (server.py lines 21-26): exact string
comparison of the request path against `/api/versions`; the API route goes to
`handle_versions_api`, everything else to the superclass static responder. -/
def doGET (fs : Fs) (path : String) : Response :=
  if path = "/api/versions" then handleVersionsApi fs else staticDoGET fs path

/-- The server loop over a sequence of requests, each given as the filesystem
state at the moment the request is handled together with the request path.
The handler keeps no state between requests, so each response is a function
of its own request alone. -/
def serve (reqs : List (Fs × String)) : List Response :=
  reqs.map (fun r => doGET r.1 r.2)

/-- Whether `sub` occurs contiguously anywhere inside `s`. -/
def charsHasSub (sub : List Char) : List Char → Bool
  | [] => sub.isEmpty
  | b :: s => charsHasPre sub (b :: s) || charsHasSub sub s

/-- Python's substring test `sub in s`. -/
def pyInStr (sub s : String) : Bool :=
  charsHasSub sub.toList s.toList

/-- The first logging argument the base class passes for a request line, e.g.
`GET /api/versions HTTP/1.1` (standard library `log_request`). -/
def requestLogLine (path : String) : String :=
  "GET " ++ path ++ " HTTP/1.1"

/-- `CORSHTTPRequestHandler.log_message` (server.py lines 59-62): returns
whether the message is actually logged.  The guard is the conditional
expression `('/api/versions' not in args[0]) if args else True`: with no
arguments the message is logged; otherwise it is logged exactly when
`/api/versions` is not a substring of the first argument. -/
def logMessage (args : List String) : Bool :=
  match args with
  | [] => true
  | a0 :: _ => !(pyInStr "/api/versions" a0)

/-- Follows the spec's words (for comparison with `childExists`): the name
maps to a regular FILE directly inside the entry. -/
def childIsFile : PyNode → String → Bool
  | .dir cs, f =>
      match lookupEntry cs f with
      | some (.file _) => true
      | _ => false
  | .file _, _ => false

/-- Follows the spec's words of claim C1 (for comparison with
`entryQualifies`): the entry is a directory, its name does not begin with
`.`, and every required filename exists AS A FILE directly inside it. -/
def specEntryQualifies (name : String) (node : PyNode) : Bool :=
  node.isDir && !(pyStartsWith name ".") && requiredFiles.all (fun f => childIsFile node f)

/-! ### Concrete filesystem fixtures used by witnesses and counterexamples -/

/-- The spec's worked example: `A` has both required files, `B` only one,
`.hidden` has both but is hidden. -/
def exampleFs : Fs :=
  ⟨[("csv_output", .dir
      [("A", .dir [("input_orders.csv", .file "o"), ("input_riders.csv", .file "r")]),
       ("B", .dir [("input_orders.csv", .file "o")]),
       (".hidden", .dir [("input_orders.csv", .file "o"), ("input_riders.csv", .file "r")])])],
    none⟩

/-- A Server Root with no `csv_output` entry at all. -/
def emptyFs : Fs := ⟨[], none⟩

/-- The version entry of the C1 counterexample: both required names exist
directly inside it, but `input_orders.csv` is a directory, not a file. -/
def c1NodeA : PyNode :=
  .dir [("input_orders.csv", .dir []), ("input_riders.csv", .file "r")]

/-- Filesystem of the C1 counterexample: `csv_output/A` with `c1NodeA`. -/
def c1Fs : Fs := ⟨[("csv_output", .dir [("A", c1NodeA)])], none⟩

/-- Both `b_set` and `a_set` qualify; `iterdir()` enumerates `b_set` first. -/
def sortFsBA : Fs :=
  ⟨[("csv_output", .dir
      [("b_set", .dir [("input_orders.csv", .file "o"), ("input_riders.csv", .file "r")]),
       ("a_set", .dir [("input_orders.csv", .file "o"), ("input_riders.csv", .file "r")])])],
    none⟩

/-- The same two qualifying entries, enumerated in the opposite order. -/
def sortFsAB : Fs :=
  ⟨[("csv_output", .dir
      [("a_set", .dir [("input_orders.csv", .file "o"), ("input_riders.csv", .file "r")]),
       ("b_set", .dir [("input_orders.csv", .file "o"), ("input_riders.csv", .file "r")])])],
    none⟩

/-- A filesystem state in which the scan raises an exception. -/
def errFs : Fs :=
  ⟨[("csv_output", .dir [("A", .dir [("input_orders.csv", .file "o")])])],
    some "disk failure"⟩

/-- A Server Root carrying a static asset at `frontend/index.html`. -/
def staticFs : Fs :=
  ⟨[("frontend", .dir [("index.html", .file "<html></html>")])], none⟩

/-- State before `B` gains its second required file: `B` does not qualify. -/
def gainFs₁ : Fs :=
  ⟨[("csv_output", .dir [("B", .dir [("input_orders.csv", .file "o")])])], none⟩

/-- State after `B` gained `input_riders.csv`: `B` qualifies. -/
def gainFs₂ : Fs :=
  ⟨[("csv_output", .dir
      [("B", .dir [("input_orders.csv", .file "o"), ("input_riders.csv", .file "r")])])],
    none⟩

/-! ### Bridge lemmas: the executable comparison agrees with the
mathematical lexicographic order on strings, and `pySort` is insertion sort
under that order. -/

theorem charsLe_iff (as : List Char) :
    ∀ bs : List Char, charsLe as bs = true ↔ ¬ List.Lex (· < ·) bs as := by
  induction as with
  | nil =>
    intro bs
    cases bs with
    | nil =>
      simp only [charsLe, true_iff]
      intro h
      cases h
    | cons b bs =>
      simp only [charsLe, true_iff]
      intro h
      cases h
  | cons a as ih =>
    intro bs
    cases bs with
    | nil =>
      simp only [charsLe, Bool.false_eq_true, false_iff, not_not]
      exact List.Lex.nil
    | cons b bs =>
      simp only [charsLe]
      rcases lt_trichotomy a b with hab | heq | hba
      · rw [if_pos hab]
        simp only [true_iff]
        intro h
        cases h with
        | rel h1 => exact absurd h1 (lt_asymm hab)
        | cons h2 => exact absurd hab (lt_irrefl a)
      · subst heq
        rw [if_neg (lt_irrefl a), if_neg (lt_irrefl a)]
        constructor
        · intro h hl
          cases hl with
          | rel h1 => exact absurd h1 (lt_irrefl a)
          | cons h2 => exact (ih bs).mp h h2
        · intro h
          exact (ih bs).mpr (fun h2 => h (List.Lex.cons h2))
      · rw [if_neg (lt_asymm hba), if_pos hba]
        simp only [Bool.false_eq_true, false_iff, not_not]
        exact List.Lex.rel hba

theorem strLe_iff (a b : String) : strLe a b = true ↔ a ≤ b := by
  rw [String.le_iff_toList_le, ← not_lt]
  exact charsLe_iff a.toList b.toList

theorem insertOrdered_eq (x : String) (l : List String) :
    insertOrdered x l = List.orderedInsert (· ≤ ·) x l := by
  induction l with
  | nil => rfl
  | cons y ys ih =>
    simp only [insertOrdered, List.orderedInsert]
    by_cases h : x ≤ y
    · rw [if_pos ((strLe_iff x y).mpr h), if_pos h]
    · rw [if_neg (fun hh => h ((strLe_iff x y).mp hh)), if_neg h, ih]

theorem pySort_eq (l : List String) : pySort l = List.insertionSort (· ≤ ·) l := by
  induction l with
  | nil => rfl
  | cons x xs ih => simp only [pySort, List.insertionSort, ih, insertOrdered_eq]

/-- `pySort` output is sorted ascending under lexicographic comparison. -/
theorem pySort_sorted (l : List String) : List.Sorted (· ≤ ·) (pySort l) := by
  rw [pySort_eq]
  exact List.sorted_insertionSort (· ≤ ·) l

/-- `pySort` output is a permutation of its input. -/
theorem pySort_perm (l : List String) : List.Perm (pySort l) l := by
  rw [pySort_eq]
  exact List.perm_insertionSort (· ≤ ·) l

/-- Sorting is invariant under permutation of the input: enumeration order
does not matter. -/
theorem pySort_congr_perm (l l' : List String) (h : List.Perm l l') :
    pySort l = pySort l' :=
  List.eq_of_perm_of_sorted ((pySort_perm l).trans (h.trans (pySort_perm l').symm))
    (pySort_sorted l) (pySort_sorted l')

/-- Membership in the computed versions list, characterized by the scan
filter: a name is in the sorted list exactly when some child entry of
`csv_output` carries that name and passes `entryQualifies`. -/
theorem mem_apiVersions_iff (fs : Fs) (name : String) :
    name ∈ apiVersions fs ↔
      ∃ node, (name, node) ∈ csvChildren fs ∧ entryQualifies name node = true := by
  unfold apiVersions
  rw [(pySort_perm (scanRaw fs)).mem_iff]
  unfold scanRaw
  constructor
  · intro hm
    rcases List.mem_map.mp hm with ⟨⟨n, node⟩, hp, hname⟩
    rcases List.mem_filter.mp hp with ⟨hpmem, hq⟩
    cases hname
    exact ⟨node, hpmem, hq⟩
  · rintro ⟨node, hmem, hq⟩
    exact List.mem_map.mpr ⟨(name, node), List.mem_filter.mpr ⟨hmem, hq⟩, rfl⟩

/-- A successful computation returns exactly the sorted scan of the current
filesystem state. -/
theorem computeVersions_ok (fs : Fs) (vs : List String)
    (h : computeVersions fs = Except.ok vs) : vs = apiVersions fs := by
  unfold computeVersions at h
  cases he : fs.scanError with
  | some e => rw [he] at h; cases h
  | none =>
    rw [he] at h
    injection h with h
    exact h.symm

/-! ### Claim theorems -/

/-- C1 (amended): for every GET request to /api/versions, a child entry of
the csv_output directory is included in the returned versions list if and
only if it is a directory, its name does not begin with '.', and every
required filename (input_orders.csv and input_riders.csv) exists — as a file
or as a directory, i.e. as any filesystem entry — directly inside it. -/
theorem versions_membership (fs : Fs) (vs : List String)
    (h : computeVersions fs = Except.ok vs) (name : String) :
    name ∈ vs ↔
      ∃ node, (name, node) ∈ csvChildren fs ∧ entryQualifies name node = true := by
  rw [computeVersions_ok fs vs h]
  exact mem_apiVersions_iff fs name

/-- C1 witness: on the spec's worked example, membership in the returned
list is exactly qualification of a child entry. -/
theorem versions_membership_witness :
    "A" ∈ ["A"] ↔
      ∃ node, ("A", node) ∈ csvChildren exampleFs ∧ entryQualifies "A" node = true :=
  versions_membership exampleFs ["A"] rfl "A"

/-- C1 counterexample: in `c1Fs`, entry `A` is returned although
`input_orders.csv` exists inside it only as a directory, so the required
filename does not exist as a file and the claim's right-hand side is false.
-/
theorem versions_membership_counterexample :
    computeVersions c1Fs = Except.ok ["A"] ∧
    csvChildren c1Fs = [("A", c1NodeA)] ∧
    specEntryQualifies "A" c1NodeA = false ∧
    childIsFile c1NodeA "input_orders.csv" = false := by
  refine ⟨rfl, rfl, by decide, by decide⟩

/-- C2: every HTTP response produced by the handler — static file success,
not-found, error, and the /api/versions JSON endpoint — carries the three
CORS headers with their fixed values, appended before header writing
completes. -/
theorem cors_on_every_response (fs : Fs) (p : String) :
    ∃ sent, (doGET fs p).headers = sent ++ corsHeaders := by
  unfold doGET
  by_cases h : p = "/api/versions"
  · rw [if_pos h]
    unfold handleVersionsApi
    cases computeVersions fs with
    | ok vs => exact ⟨[("Content-Type", "application/json")], rfl⟩
    | error e => exact ⟨[("Content-Type", "text/html;charset=utf-8")], rfl⟩
  · rw [if_neg h]
    unfold staticDoGET
    cases resolvePath (.dir fs.root) (splitPath (stripAfter "#" (stripAfter "?" p))) with
    | none => exact ⟨[("Content-Type", "text/html;charset=utf-8")], rfl⟩
    | some node =>
      cases node with
      | file content => exact ⟨[("Content-Type", "application/octet-stream")], rfl⟩
      | dir cs => exact ⟨[("Content-Type", "text/html;charset=utf-8")], rfl⟩

/-- C3: when csv_output does not exist or is not a directory, /api/versions
answers HTTP 200 with the empty versions object, not an error; the body is
the exact JSON text shown. -/
theorem versions_empty_when_absent (fs : Fs) (h : fs.scanError = none)
    (habs : ∀ cs, lookupEntry fs.root "csv_output" ≠ some (.dir cs)) :
    doGET fs "/api/versions" =
      { status := 200
        headers := endHeaders [("Content-Type", "application/json")]
        body := dumpsVersionsDict ⟨[], 0, "/csv_output"⟩ } ∧
    dumpsVersionsDict ⟨[], 0, "/csv_output"⟩ =
      "\x7b\"versions\": [], \"count\": 0, \"base_path\": \"/csv_output\"\x7d" := by
  have hc : csvChildren fs = [] := by
    unfold csvChildren
    cases hl : lookupEntry fs.root "csv_output" with
    | none => rfl
    | some node =>
      cases node with
      | file c => rfl
      | dir cs => exact absurd hl (habs cs)
  constructor
  · unfold doGET
    rw [if_pos rfl]
    unfold handleVersionsApi computeVersions
    rw [h]
    unfold apiVersions scanRaw
    rw [hc]
    rfl
  · rfl

/-- C3 witness: with no csv_output directory at all, the endpoint returns
the empty 200 JSON response. -/
theorem versions_empty_when_absent_witness :
    doGET emptyFs "/api/versions" =
      { status := 200
        headers := endHeaders [("Content-Type", "application/json")]
        body := dumpsVersionsDict ⟨[], 0, "/csv_output"⟩ } ∧
    dumpsVersionsDict ⟨[], 0, "/csv_output"⟩ =
      "\x7b\"versions\": [], \"count\": 0, \"base_path\": \"/csv_output\"\x7d" :=
  versions_empty_when_absent emptyFs rfl (fun cs h => by cases h)

/-- C4: the versions list of every successful response is sorted ascending
lexicographically (case-sensitive, code-point order), and two filesystem
states whose scans enumerate the same qualifying entries — in whatever
order — produce identical lists. -/
theorem versions_sorted (fs fs' : Fs) (vs vs' : List String)
    (h : computeVersions fs = Except.ok vs) (h' : computeVersions fs' = Except.ok vs')
    (hperm : List.Perm (scanRaw fs) (scanRaw fs')) :
    List.Sorted (fun a b => a ≤ b) vs ∧ vs = vs' := by
  rw [computeVersions_ok fs vs h, computeVersions_ok fs' vs' h']
  exact ⟨pySort_sorted (scanRaw fs), pySort_congr_perm _ _ hperm⟩

/-- C4 witness: `b_set` enumerated before `a_set` still yields the sorted
list, equal to the one produced by the opposite enumeration order. -/
theorem versions_sorted_witness :
    List.Sorted (fun a b => a ≤ b) (apiVersions sortFsBA) ∧
      apiVersions sortFsBA = apiVersions sortFsAB :=
  versions_sorted sortFsBA sortFsAB (apiVersions sortFsBA) (apiVersions sortFsAB)
    rfl rfl (List.Perm.swap "a_set" "b_set" [])

/-- C5: every successful /api/versions response has status 200, a
Content-Type application/json header, and a body that is the UTF-8 JSON
serialization of the object with exactly the keys versions, count and
base_path, where count is the length of the versions list and base_path is
/csv_output. -/
theorem versions_response_shape (fs : Fs) (vs : List String)
    (h : computeVersions fs = Except.ok vs) :
    (doGET fs "/api/versions").status = 200 ∧
    ("Content-Type", "application/json") ∈ (doGET fs "/api/versions").headers ∧
    (doGET fs "/api/versions").body = dumpsVersionsDict ⟨vs, vs.length, "/csv_output"⟩ := by
  unfold doGET
  rw [if_pos rfl]
  unfold handleVersionsApi
  rw [h]
  exact ⟨rfl, List.mem_append.mpr (Or.inl (List.mem_singleton.mpr rfl)), rfl⟩

/-- C5 witness: the response shape on the spec's worked example, whose body
serializes to the exact JSON text shown in the spec's test (with the
serializer's default separators). -/
theorem versions_response_shape_witness :
    ((doGET exampleFs "/api/versions").status = 200 ∧
      ("Content-Type", "application/json") ∈ (doGET exampleFs "/api/versions").headers ∧
      (doGET exampleFs "/api/versions").body =
        dumpsVersionsDict ⟨["A"], ["A"].length, "/csv_output"⟩) ∧
    dumpsVersionsDict ⟨["A"], ["A"].length, "/csv_output"⟩ =
      "\x7b\"versions\": [\"A\"], \"count\": 1, \"base_path\": \"/csv_output\"\x7d" :=
  ⟨versions_response_shape exampleFs ["A"] rfl, by decide⟩

/-- C6: if an exception is raised while computing the /api/versions result,
the handler responds 500 with a human-readable message naming the error; the
computation is not retried, and the server loop handles every following
request independently of the failure. -/
theorem versions_error_500 (fs : Fs) (e : String) (h : fs.scanError = some e)
    (rest : List (Fs × String)) :
    (doGET fs "/api/versions").status = 500 ∧
    (doGET fs "/api/versions").body = "Error detecting versions: " ++ e ∧
    serve ((fs, "/api/versions") :: rest) = doGET fs "/api/versions" :: serve rest := by
  have h1 : doGET fs "/api/versions" = sendError 500 ("Error detecting versions: " ++ e) := by
    unfold doGET
    rw [if_pos rfl]
    unfold handleVersionsApi computeVersions
    rw [h]
  exact ⟨by rw [h1]; rfl, by rw [h1]; rfl, rfl⟩

/-- C6 witness: a concrete mid-scan disk failure answers 500 carrying the
message, and the next request (here over a healthy state) is served
normally. -/
theorem versions_error_500_witness :
    (doGET errFs "/api/versions").status = 500 ∧
    (doGET errFs "/api/versions").body = "Error detecting versions: disk failure" ∧
    serve ((errFs, "/api/versions") :: [(exampleFs, "/api/versions")]) =
      doGET errFs "/api/versions" :: serve [(exampleFs, "/api/versions")] :=
  versions_error_500 errFs "disk failure" rfl [(exampleFs, "/api/versions")]

/-- C7: a GET whose path is exactly /api/versions is handled by the
version-discovery responder; a GET with any other path is delegated to the
standard static file responder, which serves the resolved file's bytes from
the Server Root or produces a not-found/error response. -/
theorem get_dispatch (fs : Fs) (p : String) (h : p ≠ "/api/versions") :
    doGET fs "/api/versions" = handleVersionsApi fs ∧
    doGET fs p = staticDoGET fs p ∧
    ((∃ content,
        resolvePath (.dir fs.root) (splitPath (stripAfter "#" (stripAfter "?" p))) =
          some (.file content) ∧
        (staticDoGET fs p).status = 200 ∧ (staticDoGET fs p).body = content) ∨
      (staticDoGET fs p).status = 404) := by
  refine ⟨by unfold doGET; rw [if_pos rfl], by unfold doGET; rw [if_neg h], ?_⟩
  unfold staticDoGET
  cases hres : resolvePath (.dir fs.root) (splitPath (stripAfter "#" (stripAfter "?" p))) with
  | none => exact Or.inr rfl
  | some node =>
    cases node with
    | file content => exact Or.inl ⟨content, rfl, rfl, rfl⟩
    | dir cs => exact Or.inr rfl

/-- C7 witness: on a root carrying frontend/index.html, the API route goes
to the discovery responder and the asset's path is served statically. -/
theorem get_dispatch_witness :
    doGET staticFs "/api/versions" = handleVersionsApi staticFs ∧
    doGET staticFs "/frontend/index.html" = staticDoGET staticFs "/frontend/index.html" ∧
    ((∃ content,
        resolvePath (.dir staticFs.root)
            (splitPath (stripAfter "#" (stripAfter "?" "/frontend/index.html"))) =
          some (.file content) ∧
        (staticDoGET staticFs "/frontend/index.html").status = 200 ∧
        (staticDoGET staticFs "/frontend/index.html").body = content) ∨
      (staticDoGET staticFs "/frontend/index.html").status = 404) :=
  get_dispatch staticFs "/frontend/index.html" (by decide)

/-- C8: no caching: in the server loop each /api/versions response is
recomputed from the filesystem state current at its own request — the second
of two consecutive requests is answered purely from the second state, whose
body serializes the freshly sorted scan, and a name's membership in that
response is exactly its qualification in the current state. -/
theorem no_caching (fs₁ fs₂ : Fs) (h₂ : fs₂.scanError = none) (name : String) :
    serve [(fs₁, "/api/versions"), (fs₂, "/api/versions")] =
      [doGET fs₁ "/api/versions", doGET fs₂ "/api/versions"] ∧
    (doGET fs₂ "/api/versions").body =
      dumpsVersionsDict ⟨apiVersions fs₂, (apiVersions fs₂).length, "/csv_output"⟩ ∧
    (name ∈ apiVersions fs₂ ↔
      ∃ node, (name, node) ∈ csvChildren fs₂ ∧ entryQualifies name node = true) := by
  refine ⟨rfl, ?_, mem_apiVersions_iff fs₂ name⟩
  unfold doGET
  rw [if_pos rfl]
  unfold handleVersionsApi computeVersions
  rw [h₂]

/-- C8 witness: `B` lacks a required file in the first state and has gained
it in the second; the very next response reflects the change, with no lag:
the first response lists nothing and the second lists `B`. -/
theorem no_caching_witness :
    (serve [(gainFs₁, "/api/versions"), (gainFs₂, "/api/versions")] =
      [doGET gainFs₁ "/api/versions", doGET gainFs₂ "/api/versions"] ∧
    (doGET gainFs₂ "/api/versions").body =
      dumpsVersionsDict ⟨apiVersions gainFs₂, (apiVersions gainFs₂).length, "/csv_output"⟩ ∧
    ("B" ∈ apiVersions gainFs₂ ↔
      ∃ node, ("B", node) ∈ csvChildren gainFs₂ ∧ entryQualifies "B" node = true)) ∧
    apiVersions gainFs₁ = [] ∧ apiVersions gainFs₂ = ["B"] :=
  ⟨no_caching gainFs₁ gainFs₂ rfl "B", by decide, by decide⟩

/-- C9 (amended): a log message is suppressed exactly when its first
argument contains /api/versions as a substring.  The /api/versions route's
request line is therefore suppressed, but so is any other route whose
request line contains that substring; request lines without it are logged
normally. -/
theorem log_suppression (a0 : String) (rest : List String) :
    (logMessage (a0 :: rest) = false ↔ pyInStr "/api/versions" a0 = true) ∧
    logMessage [requestLogLine "/api/versions"] = false ∧
    logMessage [requestLogLine "/frontend/index.html"] = true := by
  refine ⟨?_, by decide, by decide⟩
  have hdef : logMessage (a0 :: rest) = !(pyInStr "/api/versions" a0) := rfl
  rw [hdef]
  cases pyInStr "/api/versions" a0 <;> simp

/-- C9 counterexample: /api/versions2 is a route other than /api/versions —
it is dispatched to the static file responder — yet its request log line is
suppressed, refuting the claim that every other route is logged normally. -/
theorem log_suppression_counterexample :
    "/api/versions2" ≠ "/api/versions" ∧
    doGET emptyFs "/api/versions2" = staticDoGET emptyFs "/api/versions2" ∧
    logMessage [requestLogLine "/api/versions2"] = false :=
  ⟨by decide, rfl, by decide⟩

/-- C10: route matching is an exact string comparison on the full request
path: every path that differs from /api/versions — including one carrying a
query string or a trailing slash — falls through to the static file
responder. -/
theorem exact_route_match (fs : Fs) (p : String) (h : p ≠ "/api/versions") :
    doGET fs p = staticDoGET fs p := by
  unfold doGET
  rw [if_neg h]

/-- C10 witness: a query string or a trailing slash defeats the exact match
and the request is served statically. -/
theorem exact_route_match_witness :
    doGET emptyFs "/api/versions?x=1" = staticDoGET emptyFs "/api/versions?x=1" ∧
    doGET emptyFs "/api/versions/" = staticDoGET emptyFs "/api/versions/" :=
  ⟨exact_route_match emptyFs "/api/versions?x=1" (by decide),
   exact_route_match emptyFs "/api/versions/" (by decide)⟩

end FrontendServer
